import Mathlib

/- Shallow embedding of the EarlyAllocator bump allocator from
modules/bump_allocator/src/lib.rs, together with proofs about its byte
and page allocation operations.

Modelling conventions:
- usize values are modelled as Nat. Subtractions in the source carry
  overflow-checked (debug) semantics: a subtraction whose right operand
  exceeds the left one is a panic, modelled by an explicit guard that
  returns the panic outcome. Nat truncated subtraction is used only
  after such a guard, where it agrees with the machine value.
- The failed unwrap of NonNull::new on a null pointer is likewise a
  panic outcome, as is the todo! macro in add_memory and dealloc_pages.
- Each operation returns the post-call state together with an
  AllocResult, so that statements about the state after an error are
  direct. On a panic the state at the panic point is returned; the
  result marker records that the call aborted rather than returned.
- The mask computation start & !(align_pow2 - 1) is embedded as
  rounding down to a multiple of align_pow2; the guard in alloc_pages
  ensures align_pow2 is a power of two, for which the two coincide.
- The const generic PAGE_SIZE is passed explicitly to the page
  operations as the parameter PS. -/

namespace BumpAllocator

/-- Error type of the allocator interface (allocator::AllocError). -/
inductive AllocError where
  | NoMemory
  | InvalidParam
deriving DecidableEq

/-- Outcome of a call: the Rust Result plus an explicit panic outcome
for aborts (checked-subtraction underflow, failed unwrap, todo!). -/
inductive AllocResult (α : Type) where
  | ok : α → AllocResult α
  | err : AllocError → AllocResult α
  | panic : AllocResult α
deriving DecidableEq

/-- State of EarlyAllocator: the five usize fields of the struct.
The field end of the source is named end_ because end is a keyword. -/
structure EarlyAllocator where
  start : Nat
  end_ : Nat
  b_pos : Nat
  p_pos : Nat
  count : Nat
deriving DecidableEq

/-- EarlyAllocator::new(): all fields zero. -/
def EarlyAllocator.new : EarlyAllocator := ⟨0, 0, 0, 0, 0⟩

/-- BaseAllocator::init: sets start, end = start + size, b_pos = start,
p_pos = end. Note that the source does not touch count here. -/
def init (s : EarlyAllocator) (start size : Nat) : EarlyAllocator :=
  { s with start := start, end_ := start + size,
           b_pos := start, p_pos := start + size }

/-- BaseAllocator::add_memory: the body is todo!(), which panics before
mutating anything. -/
def add_memory (s : EarlyAllocator) (extraStart extraSize : Nat) :
    EarlyAllocator × AllocResult Unit :=
  (s, .panic)

/-- ByteAllocator::total_bytes: p_pos - start. -/
def total_bytes (s : EarlyAllocator) : Nat := s.p_pos - s.start

/-- ByteAllocator::used_bytes: b_pos - start. -/
def used_bytes (s : EarlyAllocator) : Nat := s.b_pos - s.start

/-- ByteAllocator::available_bytes: p_pos - b_pos. -/
def available_bytes (s : EarlyAllocator) : Nat := s.p_pos - s.b_pos

/-- PageAllocator::available_pages: (p_pos - b_pos) / PAGE_SIZE. -/
def available_pages (PS : Nat) (s : EarlyAllocator) : Nat :=
  (s.p_pos - s.b_pos) / PS

/-- core::alloc::Layout: a requested size and alignment. -/
structure Layout where
  size : Nat
  align : Nat
deriving DecidableEq

/-- Rust layout.pad_to_align().size(): the size rounded up to a
multiple of the alignment. -/
def padSize (l : Layout) : Nat := (l.size + l.align - 1) / l.align * l.align

/-- ByteAllocator::alloc. The first guard models the debug-mode
underflow of available_bytes when b_pos has overtaken p_pos; the
b_pos = 0 branch models NonNull::new(start as *mut u8).unwrap()
failing on the null address, which in the source happens after b_pos
and count were already advanced. -/
def alloc (s : EarlyAllocator) (l : Layout) : EarlyAllocator × AllocResult Nat :=
  if s.p_pos < s.b_pos then (s, .panic)
  else if available_bytes s < l.size then (s, .err .NoMemory)
  else if s.b_pos = 0 then
    ({ s with b_pos := s.b_pos + padSize l, count := s.count + 1 }, .panic)
  else
    ({ s with b_pos := s.b_pos + padSize l, count := s.count + 1 }, .ok s.b_pos)

/-- ByteAllocator::dealloc: count -= 1 (checked, so count = 0 panics),
then b_pos is reset to start when count reaches zero. The pos and
layout arguments are unused, exactly as in the source. -/
def dealloc (s : EarlyAllocator) (pos : Nat) (l : Layout) :
    EarlyAllocator × AllocResult Unit :=
  if s.count = 0 then (s, .panic)
  else if s.count - 1 = 0 then
    ({ s with count := s.count - 1, b_pos := s.start }, .ok ())
  else
    ({ s with count := s.count - 1 }, .ok ())

/-- Rust usize::is_power_of_two. -/
def isPow2 (n : Nat) : Bool := n != 0 && (n &&& (n - 1)) == 0

/-- Round x down to a multiple of a; for a power of two a and machine
sized x this is the mask x & !(a - 1) used by the source. -/
def alignDown (x a : Nat) : Nat := x / a * a

/-- PageAllocator::alloc_pages, embedded branch for branch. The guard
p_pos < num_pages * PS models the debug-mode underflow of
self.p_pos - alloc_size, and the guard p_pos < b_pos the underflow
inside available_pages. The capacity comparison is kept exactly as
written in the source: it errors when the required page count is LESS
than the available one. -/
def alloc_pages (PS : Nat) (s : EarlyAllocator) (num_pages align_pow2 : Nat) :
    EarlyAllocator × AllocResult Nat :=
  if isPow2 align_pow2 = false ∨ align_pow2 < PS then (s, .err .InvalidParam)
  else if s.p_pos < num_pages * PS then (s, .panic)
  else if s.p_pos < s.b_pos then (s, .panic)
  else if (s.p_pos - alignDown (s.p_pos - num_pages * PS) align_pow2) / PS
            < available_pages PS s then
    (s, .err .NoMemory)
  else
    ({ s with p_pos := alignDown (s.p_pos - num_pages * PS) align_pow2 },
     .ok (alignDown (s.p_pos - num_pages * PS) align_pow2))

/-- PageAllocator::dealloc_pages: the body is todo!(), which panics
before mutating anything. -/
def dealloc_pages (s : EarlyAllocator) (pos num_pages : Nat) :
    EarlyAllocator × AllocResult Unit :=
  (s, .panic)

/-- Run alloc over a list of layouts, stopping unless every call
returns ok. -/
def allocSeq (s : EarlyAllocator) : List Layout → Option EarlyAllocator
  | [] => some s
  | l :: ls =>
    match alloc s l with
    | (t, AllocResult.ok _) => allocSeq t ls
    | _ => none

/-- Run dealloc n times (the arguments are ignored by dealloc, so any
order of deallocations behaves identically), stopping unless every
call returns ok. -/
def deallocN (s : EarlyAllocator) : Nat → Option EarlyAllocator
  | 0 => some s
  | n + 1 =>
    match dealloc s 1 ⟨0, 1⟩ with
    | (t, AllocResult.ok _) => deallocN t n
    | _ => none


/-- Padding a zero-size layout advances the cursor by zero. -/
lemma padSize_zero (l : Layout) (hz : l.size = 0) : padSize l = 0 := by
  unfold padSize
  rw [hz, Nat.zero_add]
  rcases Nat.eq_zero_or_pos l.align with h | h
  · simp [h]
  · rw [Nat.div_eq_of_lt (Nat.sub_lt h Nat.one_pos), Nat.zero_mul]

/-- Characterization of alloc on states satisfying the documented
invariant b_pos <= p_pos with a nonzero byte cursor: it fails with
NoMemory exactly when the raw requested size exceeds available_bytes,
and otherwise returns the pre-advance b_pos, advancing the cursor by
the padded size and incrementing count. -/
lemma alloc_spec (s : EarlyAllocator) (l : Layout)
    (hb : 0 < s.b_pos) (hbp : s.b_pos ≤ s.p_pos) :
    alloc s l
      = if available_bytes s < l.size then (s, AllocResult.err AllocError.NoMemory)
        else ({ s with b_pos := s.b_pos + padSize l, count := s.count + 1 },
              AllocResult.ok s.b_pos) := by
  unfold alloc
  rw [if_neg (Nat.not_lt.mpr hbp), if_neg (Nat.pos_iff_ne_zero.mp hb)]

/-- Inversion: a successful alloc determines the next state and the
returned address, and forces a nonzero byte cursor. -/
lemma alloc_ok_inv (s t : EarlyAllocator) (l : Layout) (x : Nat)
    (h : alloc s l = (t, AllocResult.ok x)) :
    t = { s with b_pos := s.b_pos + padSize l, count := s.count + 1 }
      ∧ x = s.b_pos ∧ 0 < s.b_pos ∧ s.b_pos ≤ s.p_pos := by
  unfold alloc at h
  split at h
  · simp at h
  · split at h
    · simp at h
    · split at h
      · simp at h
      next h1 h2 h3 =>
        refine ⟨?_, ?_, Nat.pos_of_ne_zero h3, Nat.not_lt.mp h1⟩
        · exact (Prod.mk.injEq _ _ _ _ ▸ h).1.symm
        · cases h
          rfl

/-- A successful alloc run leaves start, end and p_pos untouched,
advances b_pos by the total padded size, and adds the number of calls
to count. -/
lemma allocSeq_fields :
    ∀ (ls : List Layout) (s t : EarlyAllocator), allocSeq s ls = some t →
      t.start = s.start ∧ t.end_ = s.end_ ∧ t.p_pos = s.p_pos
        ∧ t.b_pos = s.b_pos + (ls.map padSize).sum
        ∧ t.count = s.count + ls.length := by
  intro ls
  induction ls with
  | nil =>
    intro s t h
    cases h
    simp [allocSeq]
  | cons l ls ih =>
    intro s t h
    unfold allocSeq at h
    cases halloc : alloc s l with
    | mk s1 r =>
      rw [halloc] at h
      cases r with
      | ok x =>
        obtain ⟨hs1, hx, hb, hbp⟩ := alloc_ok_inv s s1 l x halloc
        obtain ⟨h1, h2, h3, h4, h5⟩ := ih s1 t h
        subst hs1
        refine ⟨h1, h2, h3, ?_, ?_⟩
        · rw [h4]
          simp [List.map, List.sum_cons]
          ring
        · rw [h5]
          simp [List.length_cons]
          ring
      | err e => simp at h
      | panic => simp at h

/-- A nonempty successful alloc run starts from a nonzero byte cursor. -/
lemma allocSeq_cons_b_pos_pos (l : Layout) (ls : List Layout)
    (s t : EarlyAllocator) (h : allocSeq s (l :: ls) = some t) :
    0 < s.b_pos := by
  unfold allocSeq at h
  cases halloc : alloc s l with
  | mk s1 r =>
    rw [halloc] at h
    cases r with
    | ok x => exact (alloc_ok_inv s s1 l x halloc).2.2.1
    | err e => simp at h
    | panic => simp at h

/-- Deallocating exactly count times succeeds, zeroes count and resets
b_pos to start, keeping everything else. -/
lemma deallocN_all :
    ∀ (n : Nat) (s : EarlyAllocator), s.count = n → 0 < n →
      deallocN s n = some { s with count := 0, b_pos := s.start } := by
  intro n
  induction n with
  | zero => intro s h hpos; exact absurd hpos (Nat.lt_irrefl 0)
  | succ m ih =>
    intro s hc hpos
    unfold deallocN dealloc
    rw [if_neg (by rw [hc]; exact Nat.succ_ne_zero m)]
    cases m with
    | zero =>
      rw [if_pos (by simp [hc])]
      simp [deallocN, hc]
    | succ k =>
      rw [if_neg (by rw [hc]; exact Nat.succ_ne_zero k)]
      have := ih { s with count := s.count - 1 } (by simp [hc]) (Nat.succ_pos k)
      simpa using this


/-- Every branch of alloc either leaves the state unchanged, or aborts,
or returns ok; used to show error returns do not mutate. -/
lemma alloc_shape (s : EarlyAllocator) (l : Layout) :
    (alloc s l).1 = s ∨ (alloc s l).2 = AllocResult.panic
      ∨ (alloc s l).2 = AllocResult.ok s.b_pos := by
  unfold alloc
  split
  · simp
  · split
    · simp
    · split <;> simp

/-- Every branch of alloc_pages either leaves the state unchanged or
returns ok; used to show error returns do not mutate. -/
lemma alloc_pages_shape (PS : Nat) (s : EarlyAllocator) (np ap : Nat) :
    (alloc_pages PS s np ap).1 = s
      ∨ ∃ x, (alloc_pages PS s np ap).2 = AllocResult.ok x := by
  unfold alloc_pages
  split
  · simp
  · split
    · simp
    · split
      · simp
      · split <;> simp

/-- alloc_pages cannot abort when the requested size fits under p_pos
and the cursors are ordered. -/
lemma alloc_pages_no_panic (PS : Nat) (s : EarlyAllocator) (np ap : Nat)
    (hbp : s.b_pos ≤ s.p_pos) (hnp : np * PS ≤ s.p_pos) :
    (alloc_pages PS s np ap).2 ≠ AllocResult.panic := by
  unfold alloc_pages
  split
  · simp
  · rw [if_neg (Nat.not_lt.mpr hnp), if_neg (Nat.not_lt.mpr hbp)]
    split <;> simp



/-- Claim C1, code evaluation at the failing input: with PAGE_SIZE =
0x100 and the state after init(0x1000, 0x1000), a one-page request
aligned to PAGE_SIZE fails with NoMemory although it fits, while a
17-page request that does not fit in the 16 available pages succeeds
and moves p_pos to 0xF00, below b_pos. The capacity comparison of
alloc_pages is inverted relative to the claim and to the intent stated
in the source comment above it. -/
theorem claim_C1_code_behavior :
    alloc_pages 0x100 (init EarlyAllocator.new 0x1000 0x1000) 1 0x100
      = (init EarlyAllocator.new 0x1000 0x1000,
         AllocResult.err AllocError.NoMemory)
    ∧ alloc_pages 0x100 (init EarlyAllocator.new 0x1000 0x1000) 17 0x100
      = ({ init EarlyAllocator.new 0x1000 0x1000 with p_pos := 0xF00 },
         AllocResult.ok 0xF00) :=
  ⟨by decide, by decide⟩

/-- Claim C2, code evaluation at the failing input: from
init(0x1000, 0x1000), a successful alloc_bytes of raw size 1 with
alignment 0x2000 advances b_pos by the padded size 0x2000 up to
0x3000, strictly beyond p_pos = 0x2000, so the claimed invariant
b_pos <= p_pos does not survive a successful alloc_bytes whose padded
size exceeds the raw size the capacity check used. -/
theorem claim_C2_code_behavior :
    alloc (init EarlyAllocator.new 0x1000 0x1000) ⟨1, 0x2000⟩
      = (⟨0x1000, 0x2000, 0x3000, 0x2000, 1⟩, AllocResult.ok 0x1000)
    ∧ (⟨0x1000, 0x2000, 0x3000, 0x2000, 1⟩ : EarlyAllocator).p_pos
        < (⟨0x1000, 0x2000, 0x3000, 0x2000, 1⟩ : EarlyAllocator).b_pos :=
  ⟨by decide, by decide⟩

/-- Claim C3 counterexample: alloc_pages with num_pages * PAGE_SIZE
exceeding p_pos aborts (the subtraction p_pos - alloc_size underflows)
instead of returning a success or error value. -/
theorem claim_C3_counterexample :
    (alloc_pages 0x100 (init EarlyAllocator.new 0x1000 0x1000) 0x100 0x100).2
      = AllocResult.panic := by decide

/-- Claim C3 amended: alloc_bytes returns an explicit success or error
value for every layout provided the state satisfies 0 < b_pos and
b_pos <= p_pos, and alloc_pages does so for all arguments provided
b_pos <= p_pos and num_pages * PAGE_SIZE <= p_pos; outside these
bounds the calls can abort, as the counterexample shows. -/
theorem claim_C3_amended (PS : Nat) (s : EarlyAllocator) (l : Layout) (np ap : Nat)
    (hb : 0 < s.b_pos) (hbp : s.b_pos ≤ s.p_pos) (hnp : np * PS ≤ s.p_pos) :
    (alloc s l).2 ≠ AllocResult.panic
      ∧ (alloc_pages PS s np ap).2 ≠ AllocResult.panic := by
  refine ⟨?_, alloc_pages_no_panic PS s np ap hbp hnp⟩
  rw [alloc_spec s l hb hbp]
  split <;> simp

/-- Claim C3 witness at a concrete state and concrete arguments. -/
theorem claim_C3_witness :
    (alloc ⟨0x1000, 0x2000, 0x1000, 0x2000, 0⟩ ⟨8, 8⟩).2 ≠ AllocResult.panic
      ∧ (alloc_pages 0x100 ⟨0x1000, 0x2000, 0x1000, 0x2000, 0⟩ 1 0x100).2
          ≠ AllocResult.panic :=
  claim_C3_amended 0x100 ⟨0x1000, 0x2000, 0x1000, 0x2000, 0⟩ ⟨8, 8⟩ 1 0x100
    (by decide) (by decide) (by decide)

/-- Claim C4 counterexample: on the zeroed allocator produced by new()
(where b_pos = 0), a zero-size request passes the capacity check, so
the claim says the call succeeds; the code instead aborts while
unwrapping NonNull::new on address 0, after b_pos and count were
already advanced. -/
theorem claim_C4_counterexample :
    alloc EarlyAllocator.new ⟨0, 1⟩ = (⟨0, 0, 0, 0, 1⟩, AllocResult.panic) := by
  decide

/-- Claim C4 amended: provided 0 < b_pos and b_pos <= p_pos, alloc_bytes
fails with NoMemory exactly when available_bytes is below the raw
requested size, and otherwise returns the pre-advance b_pos, advances
b_pos by the padded size and increments count by one; consequently
after any all-successful sequence of alloc_bytes calls from a freshly
initialized allocator, used_bytes equals the sum of the padded sizes
and count equals the number of calls. -/
theorem claim_C4_amended (s : EarlyAllocator) (l : Layout) (a n : Nat)
    (ls : List Layout) (t : EarlyAllocator)
    (hb : 0 < s.b_pos) (hbp : s.b_pos ≤ s.p_pos)
    (hseq : allocSeq (init EarlyAllocator.new a n) ls = some t) :
    alloc s l
      = (if available_bytes s < l.size then (s, AllocResult.err AllocError.NoMemory)
         else ({ s with b_pos := s.b_pos + padSize l, count := s.count + 1 },
               AllocResult.ok s.b_pos))
    ∧ used_bytes t = (ls.map padSize).sum
    ∧ t.count = ls.length := by
  obtain ⟨h1, h2, h3, h4, h5⟩ := allocSeq_fields ls (init EarlyAllocator.new a n) t hseq
  have h1a : t.start = a := by simpa [init] using h1
  have h4a : t.b_pos = a + (ls.map padSize).sum := by simpa [init] using h4
  have h5a : t.count = ls.length := by
    simpa [init, EarlyAllocator.new] using h5
  refine ⟨alloc_spec s l hb hbp, ?_, h5a⟩
  rw [used_bytes, h4a, h1a, Nat.add_sub_cancel_left]

/-- Claim C4 witness at a concrete state, layout and call sequence. -/
theorem claim_C4_witness :
    alloc ⟨0x1000, 0x2000, 0x1000, 0x2000, 0⟩ ⟨8, 8⟩
      = (if available_bytes ⟨0x1000, 0x2000, 0x1000, 0x2000, 0⟩ < 8 then
           (⟨0x1000, 0x2000, 0x1000, 0x2000, 0⟩,
            AllocResult.err AllocError.NoMemory)
         else (⟨0x1000, 0x2000, 0x1008, 0x2000, 1⟩, AllocResult.ok 0x1000))
    ∧ used_bytes ⟨0x1000, 0x2000, 0x1008, 0x2000, 1⟩
        = ([⟨8, 8⟩].map padSize).sum
    ∧ (⟨0x1000, 0x2000, 0x1008, 0x2000, 1⟩ : EarlyAllocator).count
        = [(⟨8, 8⟩ : Layout)].length := by
  exact claim_C4_amended ⟨0x1000, 0x2000, 0x1000, 0x2000, 0⟩ ⟨8, 8⟩ 0x1000 0x1000
    [⟨8, 8⟩] ⟨0x1000, 0x2000, 0x1008, 0x2000, 1⟩ (by decide) (by decide) (by decide)

/-- Claim C5 counterexample: init does not write the count field, so on
a state whose count is 1 the claimed postcondition count = 0 fails. -/
theorem claim_C5_counterexample :
    (init ⟨0, 0, 0, 0, 1⟩ 0x1000 0x1000).count ≠ 0 := by decide

/-- Claim C5 amended: init(start, size) sets start, end = start + size,
b_pos = start and p_pos = end while leaving count unchanged, and
immediately afterwards total_bytes = size, available_bytes = size and
used_bytes = 0. -/
theorem claim_C5_amended (s : EarlyAllocator) (a n : Nat) :
    init s a n = ⟨a, a + n, a, a + n, s.count⟩
    ∧ total_bytes (init s a n) = n
    ∧ available_bytes (init s a n) = n
    ∧ used_bytes (init s a n) = 0 := by
  refine ⟨rfl, ?_, ?_, ?_⟩
  · simp [total_bytes, init]
  · simp [available_bytes, init]
  · simp [used_bytes, init]


/-- Claim C6: dealloc_bytes ignores its pos and layout arguments; on a
state with count >= 1 it decrements count and resets b_pos to start
exactly when count reaches zero (b_pos is untouched while count stays
positive); and after an all-successful nonempty sequence of byte
allocations from a freshly initialized allocator, deallocating the
same number of times zeroes count and b_pos back to start, makes
used_bytes zero, and a next fitting alloc_bytes returns the original
start address. -/
theorem claim_C6_dealloc (s : EarlyAllocator) (pos pos2 : Nat) (l l2 lnext : Layout)
    (a n : Nat) (ls : List Layout) (t : EarlyAllocator)
    (hc : 1 ≤ s.count)
    (hseq : allocSeq (init EarlyAllocator.new a n) ls = some t)
    (hlen : 0 < ls.length)
    (hfit : lnext.size ≤ available_bytes { t with count := 0, b_pos := t.start }) :
    dealloc s pos l = dealloc s pos2 l2
    ∧ dealloc s pos l
        = ({ s with
              count := s.count - 1
              b_pos := if s.count = 1 then s.start else s.b_pos },
           AllocResult.ok ())
    ∧ deallocN t ls.length = some { t with count := 0, b_pos := t.start }
    ∧ used_bytes { t with count := 0, b_pos := t.start } = 0
    ∧ (alloc { t with count := 0, b_pos := t.start } lnext).2
        = AllocResult.ok a := by
  obtain ⟨h1, h2, h3, h4, h5⟩ := allocSeq_fields ls (init EarlyAllocator.new a n) t hseq
  have h1a : t.start = a := by simpa [init] using h1
  have h3a : t.p_pos = a + n := by simpa [init] using h3
  have h5a : t.count = ls.length := by
    simpa [init, EarlyAllocator.new] using h5
  have hane : 0 < a := by
    obtain ⟨l0, ls0, hcons⟩ := List.exists_cons_of_ne_nil (List.length_pos.mp hlen)
    rw [hcons] at hseq
    have := allocSeq_cons_b_pos_pos l0 ls0 (init EarlyAllocator.new a n) t hseq
    simpa [init] using this
  refine ⟨rfl, ?_, ?_, ?_, ?_⟩
  · by_cases h1c : s.count = 1
    · simp [dealloc, h1c]
    · have hne : s.count ≠ 0 := by omega
      have hne2 : s.count - 1 ≠ 0 := by omega
      simp [dealloc, hne, hne2, h1c]
  · exact deallocN_all ls.length t h5a hlen
  · simp [used_bytes]
  · have hb2 : (0:Nat) < ({ t with count := 0, b_pos := t.start } : EarlyAllocator).b_pos := by
      simpa [h1a] using hane
    have hbp2 : ({ t with count := 0, b_pos := t.start } : EarlyAllocator).b_pos
        ≤ ({ t with count := 0, b_pos := t.start } : EarlyAllocator).p_pos := by
      simp [h1a, h3a]
    rw [alloc_spec { t with count := 0, b_pos := t.start } lnext hb2 hbp2,
        if_neg (Nat.not_lt.mpr hfit)]
    simp [h1a]

/-- Claim C6 witness: one allocation from init(0x1000, 0x1000), one
deallocation, then a fitting allocation that returns 0x1000 again. -/
theorem claim_C6_witness :
    deallocN ⟨0x1000, 0x2000, 0x1008, 0x2000, 1⟩ 1
        = some ⟨0x1000, 0x2000, 0x1000, 0x2000, 0⟩
    ∧ used_bytes ⟨0x1000, 0x2000, 0x1000, 0x2000, 0⟩ = 0
    ∧ (alloc ⟨0x1000, 0x2000, 0x1000, 0x2000, 0⟩ ⟨8, 8⟩).2
        = AllocResult.ok 0x1000 := by
  have h := claim_C6_dealloc ⟨0x1000, 0x2000, 0x1008, 0x2000, 1⟩ 1 2 ⟨8, 8⟩ ⟨4, 4⟩
      ⟨8, 8⟩ 0x1000 0x1000 [⟨8, 8⟩] ⟨0x1000, 0x2000, 0x1008, 0x2000, 1⟩
      (by decide) (by decide) (by decide) (by decide)
  exact ⟨h.2.2.1, h.2.2.2.1, h.2.2.2.2⟩

/-- Claim C7: whenever alloc_bytes or alloc_pages returns an error
value (NoMemory or InvalidParam), the state it returns is exactly the
pre-call state: the failing checks all run before any field is
written. -/
theorem claim_C7_error_atomicity (PS : Nat) (s t : EarlyAllocator) (l : Layout)
    (np ap : Nat) (e e2 : AllocError)
    (h1 : (alloc s l).2 = AllocResult.err e)
    (h2 : (alloc_pages PS t np ap).2 = AllocResult.err e2) :
    (alloc s l).1 = s ∧ (alloc_pages PS t np ap).1 = t := by
  constructor
  · rcases alloc_shape s l with h | h | h
    · exact h
    · simp [h] at h1
    · simp [h] at h1
  · rcases alloc_pages_shape PS t np ap with h | ⟨x, h⟩
    · exact h
    · simp [h] at h2

/-- Claim C7 witness: a NoMemory byte request and an InvalidParam page
request both return the pre-call state. -/
theorem claim_C7_witness :
    (alloc ⟨0x1000, 0x2000, 0x1000, 0x2000, 0⟩ ⟨0x2000, 1⟩).1
        = ⟨0x1000, 0x2000, 0x1000, 0x2000, 0⟩
    ∧ (alloc_pages 0x100 ⟨0x1000, 0x2000, 0x1000, 0x2000, 0⟩ 1 3).1
        = ⟨0x1000, 0x2000, 0x1000, 0x2000, 0⟩ :=
  claim_C7_error_atomicity 0x100 ⟨0x1000, 0x2000, 0x1000, 0x2000, 0⟩
    ⟨0x1000, 0x2000, 0x1000, 0x2000, 0⟩ ⟨0x2000, 1⟩ 1 3
    AllocError.NoMemory AllocError.InvalidParam (by decide) (by decide)

/-- Claim C8 counterexample: add_memory and dealloc_pages are todo!()
in the source, so instead of returning an explicit unsupported or
error value they abort with a panic. -/
theorem claim_C8_counterexample :
    (add_memory (init EarlyAllocator.new 0x1000 0x1000) 0x2000 0x1000).2
      = AllocResult.panic
    ∧ (dealloc_pages (init EarlyAllocator.new 0x1000 0x1000) 0x1F00 1).2
      = AllocResult.panic :=
  ⟨rfl, rfl⟩

/-- Claim C8 amended: add_memory and dealloc_pages never succeed and
never mutate the state, but they fail by panicking (todo!), an
uncatchable abort, rather than by returning an error value. -/
theorem claim_C8_amended (s : EarlyAllocator) (a b p np : Nat) :
    add_memory s a b = (s, AllocResult.panic)
    ∧ dealloc_pages s p np = (s, AllocResult.panic) :=
  ⟨rfl, rfl⟩

/-- Claim C9: dealloc_bytes aborts exactly on states with count = 0
(the unchecked decrement of the unsigned count underflows), so the
operation is total precisely under the precondition count >= 1. -/
theorem claim_C9_dealloc_underflow (s : EarlyAllocator) (pos : Nat) (l : Layout) :
    (dealloc s pos l).2 = AllocResult.panic ↔ s.count = 0 := by
  unfold dealloc
  by_cases h : s.count = 0
  · simp [h]
  · by_cases h2 : s.count - 1 = 0 <;> simp [h, h2]

/-- Claim C10: on a state with a nonzero byte cursor satisfying the
cursor ordering, a zero-size allocation always succeeds, even with
zero available bytes: it returns the current b_pos, leaves b_pos
unchanged (the padded size of a zero-size layout is zero) and still
increments count. -/
theorem claim_C10_zero_size (s : EarlyAllocator) (l : Layout)
    (hb : 0 < s.b_pos) (hbp : s.b_pos ≤ s.p_pos) (hz : l.size = 0) :
    alloc s l = ({ s with count := s.count + 1 }, AllocResult.ok s.b_pos) := by
  rw [alloc_spec s l hb hbp, if_neg (by rw [hz]; exact Nat.not_lt_zero _),
      padSize_zero l hz]
  simp

/-- Claim C10 witness: a zero-size request on a full allocator (zero
available bytes) succeeds and only bumps count. -/
theorem claim_C10_witness :
    alloc ⟨0x1000, 0x1000, 0x1000, 0x1000, 0⟩ ⟨0, 8⟩
      = (⟨0x1000, 0x1000, 0x1000, 0x1000, 1⟩, AllocResult.ok 0x1000)
    ∧ available_bytes ⟨0x1000, 0x1000, 0x1000, 0x1000, 0⟩ = 0 :=
  ⟨claim_C10_zero_size ⟨0x1000, 0x1000, 0x1000, 0x1000, 0⟩ ⟨0, 8⟩
      (by decide) (by decide) rfl,
   by decide⟩

end BumpAllocator
